import Mathlib

/-!
Shallow embedding of the dermatology patient portal's patient-resolution
workflow (Next.js / TypeScript sources) and proofs about it.

Modelling conventions:
* A JavaScript string is modelled as a `List Char` (`JSString`).
* `String.prototype.toLowerCase()` is modelled per character as basic-latin
  lowering (the only characters relevant to the repository's email handling),
  and `String.prototype.trim()` drops leading and trailing whitespace.
* ISO timestamps that the code only ever compares after `new Date(...)`
  parsing (session `expiresAt`, appointment `startsAt`) are modelled by their
  epoch-millisecond value as an `Int`.
* A network interaction is modelled by passing the outcome of the `fetch`
  (`FetchOutcome` for the server-side GraphQL call, `ClientFetch` for the
  browser-side call of the portal's own proxy API) as an explicit argument.
* Functions that additionally report which GraphQL `variables` payload was
  put on the wire return it as the first component of a pair (`none` when the
  code throws before issuing the network request).
-/

namespace DermPortal

/-- JavaScript strings, modelled as lists of characters. -/
abbrev JSString := List Char

/-- Basic-latin lowering of one character, as performed by
`String.prototype.toLowerCase()` on the characters occurring in this
repository's email handling: `A`-`Z` (codes 65-90) map to `a`-`z`. -/
def toLowerChar (c : Char) : Char :=
  if 65 ≤ c.toNat ∧ c.toNat ≤ 90 then Char.ofNat (c.toNat + 32) else c

/-- `String.prototype.toLowerCase()`. -/
def jsToLower (s : JSString) : JSString := s.map toLowerChar

/-- The white-space and line-terminator code points removed by
`String.prototype.trim()` (ECMA-262 `TrimString`): TAB, LF, VT, FF, CR,
SP, NBSP, LS, PS, ZWNBSP. -/
def isJsSpace (c : Char) : Bool :=
  decide (c.toNat = 9 ∨ c.toNat = 10 ∨ c.toNat = 11 ∨ c.toNat = 12 ∨
    c.toNat = 13 ∨ c.toNat = 32 ∨ c.toNat = 160 ∨ c.toNat = 8232 ∨
    c.toNat = 8233 ∨ c.toNat = 65279)

/-- `String.prototype.trim()`: drop leading and trailing whitespace. -/
def jsTrim (s : JSString) : JSString :=
  ((s.dropWhile isJsSpace).reverse.dropWhile isJsSpace).reverse

/-- The email normalization used before every lookup/create call:
`email.toLowerCase().trim()` (healthie-service.ts line 6 and 189, the
patient API route lines 59 and 135, auth-context `signIn`). -/
def normalizeEmail (email : JSString) : JSString := jsTrim (jsToLower email)

/-! ### Data model (src/patient-portal/src/types/index.ts) -/

/-- `insurance?: { provider: string; memberId: string }`. -/
structure Insurance where
  provider : JSString
  memberId : JSString
deriving DecidableEq

/-- The `Patient` identity record. `email` is a mandatory field of the type:
a `Patient` value cannot be constructed without one. -/
structure Patient where
  id : JSString
  firstName : JSString
  lastName : JSString
  email : JSString
  dob : Option JSString
  sexAtBirth : Option JSString
  insurance : Option Insurance
  phone : Option JSString
deriving DecidableEq

/-- `FormTask = { id, title, status }`. -/
structure FormTask where
  id : JSString
  title : JSString
  status : JSString
deriving DecidableEq

/-- `Appointment = { id, startsAt }`; `startsAt` is an ISO timestamp that the
code only uses through `new Date(...)`, modelled by its epoch-ms value. -/
structure Appointment where
  id : JSString
  startsAt : Int
deriving DecidableEq

/-- `Session = { sessionId, email, expiresAt }`; `expiresAt` is an ISO
timestamp, modelled by its epoch-ms value. -/
structure Session where
  sessionId : JSString
  email : JSString
  expiresAt : Int
deriving DecidableEq

/-! ### Remote GraphQL plumbing (src/unnamed/part_001, `makeGraphQLRequest`) -/

/-- Outcome of the server-side `fetch` of the remote GraphQL API. -/
inductive FetchOutcome (α : Type) where
  | networkFailure
  | httpFailure (status : Nat) (body : JSString)
  | ok (body : α)

/-- Error classification of a failed remote call (the thrown `Error`s of
`makeGraphQLRequest` and the server service constructor). -/
inductive RemoteError where
  | missingApiKey
  | networkError
  | httpError (status : Nat)
  | graphqlErrors
deriving DecidableEq

/-- A parsed GraphQL response body `{ errors?, data? }`. A present `errors`
key (even an empty array) is truthy in `if (result.errors)`. -/
structure GraphQLResponse (δ : Type) where
  errors : Option (List JSString)
  data : Option δ

/-- `makeGraphQLRequest` (src/unnamed/part_001 lines 7-48): throws
`'No API key available'` before the `fetch` when the key is empty; otherwise
posts `{ query, variables }` and throws on a non-2xx status or a GraphQL
`errors` payload, returning `result.data` on success. The first component is
the `variables` payload put on the wire (`none` when no request was made).
The query text does not influence control flow and is omitted. -/
def makeGraphQLRequest {V δ : Type} (apiKey : JSString) (vars : V)
    (outcome : FetchOutcome (GraphQLResponse δ)) :
    Option V × Except RemoteError (Option δ) :=
  if apiKey = [] then (none, .error .missingApiKey)
  else
    (some vars,
      match outcome with
      | .networkFailure => .error .networkError
      | .httpFailure status _ => .error (.httpError status)
      | .ok body =>
        if body.errors.isSome then .error .graphqlErrors
        else .ok body.data)

/-- `HealthieServerService` constructor (healthie-service.ts lines 122-129):
`this.apiKey = process.env.HEALTHIE_API_KEY || ''`, then
`if (!this.apiKey) throw new Error('HEALTHIE_API_KEY ... is required')`. -/
def healthieServerServiceApiKey (envApiKey : Option JSString) :
    Except RemoteError JSString :=
  let apiKey := envApiKey.getD []
  if apiKey = [] then .error .missingApiKey else .ok apiKey

/-! ### Patient lookup (src/unnamed/part_001 `GET`, healthie-service.ts
`HealthieServerService.findPatientByEmail`) -/

/-- A user record as returned by the `FindUserByEmail` users query. -/
structure RemoteUser where
  id : JSString
  first_name : JSString
  last_name : JSString
  email : JSString
  dob : Option JSString
  sex : Option JSString
  phone_number : Option JSString
deriving DecidableEq

/-- The `data` payload of the users query: `{ users?: [...] }`. -/
structure UsersData where
  users : Option (List RemoteUser)

/-- Mapping of a remote user to the `Patient` shape, as written at
src/unnamed/part_001 lines 85-93 and healthie-service.ts lines 210-218. -/
def mapRemoteUser (u : RemoteUser) : Patient :=
  { id := u.id
    firstName := u.first_name
    lastName := u.last_name
    email := u.email
    dob := u.dob
    sexAtBirth := u.sex
    insurance := none
    phone := u.phone_number }

/-- The client-side post-filter shared by both lookup call sites:
`if (data?.users && data.users.length > 0) { const user =
data.users.find(u => u.email.toLowerCase() === normalizedEmail); ... }`. -/
def selectUserByEmail (normalizedEmail : JSString) (usersData : Option UsersData) :
    Option RemoteUser :=
  match usersData.bind (fun d => d.users) with
  | some users =>
    if users.length > 0 then
      users.find? (fun u => jsToLower u.email == normalizedEmail)
    else none
  | none => none

/-- A response of one of the portal's own proxy API routes: a 200 JSON body,
or `{ error }` with a non-2xx status. -/
inductive RouteResult (α : Type) where
  | json (body : α)
  | failed (status : Nat) (message : JSString)

/-- The `GET /api/healthie/patient` route (src/unnamed/part_001 lines
50-103): `if (!email)` answers 400 `'Email parameter is required'` — the
parameter may be absent (`searchParams.get` returns `null`) or the falsy
empty string (`?email=`); in both cases no remote call is made. Otherwise
the route normalizes the email, queries the remote users search,
post-filters case-insensitively, and returns `{ patient }` or
`{ patient: null }`; any thrown error is caught and answered with a 500
`{ error: 'Failed to find patient' }`. First component: the email variable
sent to the remote system, if a request was made. -/
def patientGET (apiKey : JSString) (emailParam : Option JSString)
    (outcome : FetchOutcome (GraphQLResponse UsersData)) :
    Option JSString × RouteResult (Option Patient) :=
  match emailParam with
  | none => (none, .failed 400 "Email parameter is required".data)
  | some email =>
    if email.isEmpty then (none, .failed 400 "Email parameter is required".data)
    else
      let normalizedEmail := normalizeEmail email
      match makeGraphQLRequest apiKey normalizedEmail outcome with
      | (sent, .error _) => (sent, .failed 500 "Failed to find patient".data)
      | (sent, .ok usersData) =>
        match selectUserByEmail normalizedEmail usersData with
        | some u => (sent, .json (some (mapRemoteUser u)))
        | none => (sent, .json none)

/-- `HealthieServerService.findPatientByEmail` (healthie-service.ts lines
188-223): same normalization, query and post-filter as the route, but
returns the patient (or null) directly and lets remote errors propagate. -/
def serverFindPatientByEmail (apiKey : JSString) (email : JSString)
    (outcome : FetchOutcome (GraphQLResponse UsersData)) :
    Option JSString × Except RemoteError (Option Patient) :=
  let normalizedEmail := normalizeEmail email
  match makeGraphQLRequest apiKey normalizedEmail outcome with
  | (sent, .error e) => (sent, .error e)
  | (sent, .ok usersData) =>
    match selectUserByEmail normalizedEmail usersData with
    | some u => (sent, .ok (some (mapRemoteUser u)))
    | none => (sent, .ok none)

/-! ### Patient creation and demographics update routes
(src/unnamed/part_001 `POST` and `PATCH`) -/

/-- A field-level validation message `{ field, message }` of the remote
mutations. -/
structure FieldMessage where
  field : JSString
  message : JSString
deriving DecidableEq

/-- User fields selected by the `createClient` mutation. -/
structure CreateClientUser where
  id : JSString
  first_name : JSString
  last_name : JSString
  email : JSString
  phone_number : Option JSString
deriving DecidableEq

/-- `createClient` mutation payload: `{ user?, messages? }`. -/
structure CreateClientPayload where
  user : Option CreateClientUser
  messages : Option (List FieldMessage)

/-- `data` of the create mutation: `{ createClient? }`. -/
structure CreateClientData where
  createClient : Option CreateClientPayload

/-- The `variables.input` the POST route builds for `createClient`
(src/unnamed/part_001 lines 133-144). -/
structure CreateClientInput where
  email : JSString
  first_name : JSString
  last_name : JSString
  phone_number : Option JSString
  dont_send_welcome : Bool
  skip_set_password_state : Bool
deriving DecidableEq

/-- The 200 response body of the POST route. -/
structure CreatedPatientBody where
  id : JSString
  firstName : JSString
  lastName : JSString
  email : JSString
  phone : Option JSString
deriving DecidableEq

/-- `` `Validation errors: ${messages.map(m => `${m.field}: ${m.message}`).join(', ')}` ``. -/
def formatValidationErrors (msgs : List FieldMessage) : JSString :=
  "Validation errors: ".data ++
    List.intercalate ", ".data (msgs.map (fun m => m.field ++ ": ".data ++ m.message))

/-- JavaScript falsiness of an optional string field of a JSON body:
absent, or the empty string. -/
def jsFalsy (o : Option JSString) : Bool :=
  match o with
  | none => true
  | some s => s.isEmpty

/-- The `POST /api/healthie/patient` route (src/unnamed/part_001 lines
105-176): 400 when a required field is falsy; issues `createClient` with a
normalized email; 400 with the formatted messages when the payload carries a
non-empty `messages` list (checked before the `user` field); 500 when no
user is returned; otherwise a 200 body built from the returned user. Any
thrown error is caught and answered 500 `'Failed to create patient'`. -/
def patientPOST (apiKey : JSString)
    (email password firstName lastName phone : Option JSString)
    (outcome : FetchOutcome (GraphQLResponse CreateClientData)) :
    Option CreateClientInput × RouteResult CreatedPatientBody :=
  if jsFalsy email || jsFalsy password || jsFalsy firstName || jsFalsy lastName then
    (none, .failed 400 "Missing required fields".data)
  else
    let input : CreateClientInput :=
      { email := normalizeEmail (email.getD [])
        first_name := firstName.getD []
        last_name := lastName.getD []
        phone_number := phone
        dont_send_welcome := true
        skip_set_password_state := true }
    match makeGraphQLRequest apiKey input outcome with
    | (sent, .error _) => (sent, .failed 500 "Failed to create patient".data)
    | (sent, .ok data) =>
      let msgs := (data.bind (fun d => d.createClient)).bind (fun c => c.messages)
      if (msgs.getD []).length > 0 then
        (sent, .failed 400 (formatValidationErrors (msgs.getD [])))
      else
        match (data.bind (fun d => d.createClient)).bind (fun c => c.user) with
        | none => (sent, .failed 500 "Failed to create patient".data)
        | some u =>
          (sent, .json
            { id := u.id
              firstName := u.first_name
              lastName := u.last_name
              email := u.email
              phone := u.phone_number })

/-- `updateUser` mutation payload: `{ user?, messages? }` (the selected user
fields coincide with the `FindUserByEmail` selection). -/
structure UpdateUserPayload where
  user : Option RemoteUser
  messages : Option (List FieldMessage)

/-- `data` of the update mutation: `{ updateUser? }`. -/
structure UpdateUserData where
  updateUser : Option UpdateUserPayload

/-- The `demographics` object of the PATCH request body. The route forwards
only `dob` and `sexAtBirth` (insurance is dropped with a source comment). -/
structure DemographicsBody where
  dob : JSString
  sexAtBirth : JSString
deriving DecidableEq

/-- The `variables.input` the PATCH route builds for `updateUser`
(src/unnamed/part_001 lines 208-216). -/
structure UpdateUserInput where
  id : JSString
  dob : JSString
  sex : JSString
deriving DecidableEq

/-- The 200 response body of the PATCH route. -/
structure UpdatedPatientBody where
  id : JSString
  firstName : JSString
  lastName : JSString
  email : JSString
  dob : Option JSString
  sexAtBirth : Option JSString
  phone : Option JSString
deriving DecidableEq

/-- The `PATCH /api/healthie/patient` route (src/unnamed/part_001 lines
178-250): 400 when `id` or `demographics` is falsy; issues `updateUser`;
400 with the formatted messages when the payload carries a non-empty
`messages` list (checked before the `user` field); 500 when no user is
returned; otherwise a 200 body from the returned user. Any thrown error is
caught and answered 500 `'Failed to update patient demographics'`. -/
def patientPATCH (apiKey : JSString)
    (id : Option JSString) (demographics : Option DemographicsBody)
    (outcome : FetchOutcome (GraphQLResponse UpdateUserData)) :
    Option UpdateUserInput × RouteResult UpdatedPatientBody :=
  match id, demographics with
  | some i, some d =>
    if i.isEmpty then (none, .failed 400 "Missing required fields".data)
    else
      let input : UpdateUserInput := { id := i, dob := d.dob, sex := d.sexAtBirth }
      match makeGraphQLRequest apiKey input outcome with
      | (sent, .error _) =>
        (sent, .failed 500 "Failed to update patient demographics".data)
      | (sent, .ok data) =>
        let msgs := (data.bind (fun d => d.updateUser)).bind (fun c => c.messages)
        if (msgs.getD []).length > 0 then
          (sent, .failed 400 (formatValidationErrors (msgs.getD [])))
        else
          match (data.bind (fun d => d.updateUser)).bind (fun c => c.user) with
          | none => (sent, .failed 500 "Failed to update patient demographics".data)
          | some u =>
            (sent, .json
              { id := u.id
                firstName := u.first_name
                lastName := u.last_name
                email := u.email
                dob := u.dob
                sexAtBirth := u.sex
                phone := u.phone_number })
  | _, _ => (none, .failed 400 "Missing required fields".data)

/-! ### Client-side service (healthie-service.ts `HealthieService`) -/

/-- Outcome of a browser-side `fetch` of the portal's own proxy API. -/
inductive ClientFetch (α : Type) where
  | networkFailure
  | response (r : RouteResult α)

/-- Errors thrown by the client-side create/update wrappers. -/
inductive ClientError where
  | network
  | httpStatus (status : Nat)
deriving DecidableEq

/-- `HealthieService.findPatientByEmail` (healthie-service.ts lines 5-21):
normalizes the email into the request URL; on a 2xx response returns
`data.patient`; on a non-2xx response returns `null`; on a thrown fetch
error logs and returns `null`. The email only shapes the URL, never the
result. -/
def clientFindPatientByEmail (_email : JSString)
    (outcome : ClientFetch (Option Patient)) : Option Patient :=
  match outcome with
  | .networkFailure => none
  | .response (.failed _ _) => none
  | .response (.json body) => body

/-- `HealthieService.createPatient` (healthie-service.ts lines 23-49):
throws on a fetch failure or a non-2xx status, otherwise returns
`{ id: data.id }`. -/
def clientCreatePatient (outcome : ClientFetch CreatedPatientBody) :
    Except ClientError JSString :=
  match outcome with
  | .networkFailure => .error .network
  | .response (.failed status _) => .error (.httpStatus status)
  | .response (.json body) => .ok body.id

/-- `HealthieService.updatePatientDemographics` (healthie-service.ts lines
51-78): throws on a fetch failure or a non-2xx status, otherwise returns. -/
def clientUpdatePatientDemographics (outcome : ClientFetch UpdatedPatientBody) :
    Except ClientError Unit :=
  match outcome with
  | .networkFailure => .error .network
  | .response (.failed status _) => .error (.httpStatus status)
  | .response (.json _) => .ok ()

/-- `{ forms?: [...] }` body of the forms proxy route. -/
structure FormsBody where
  forms : Option (List FormTask)

/-- `{ appointments?: [...] }` body of the appointments proxy route. -/
structure AppointmentsBody where
  appointments : Option (List Appointment)

/-- `HealthieService.getFormsForPatient` (healthie-service.ts lines 80-96):
`data.forms || []` on 2xx, `[]` on non-2xx, `[]` on a thrown fetch error. -/
def clientGetFormsForPatient (outcome : ClientFetch FormsBody) : List FormTask :=
  match outcome with
  | .networkFailure => []
  | .response (.failed _ _) => []
  | .response (.json body) => body.forms.getD []

/-- `HealthieService.getUpcomingAppointments` (healthie-service.ts lines
98-114): `data.appointments || []` on 2xx, `[]` on non-2xx, `[]` on a
thrown fetch error. -/
def clientGetUpcomingAppointments (outcome : ClientFetch AppointmentsBody) :
    List Appointment :=
  match outcome with
  | .networkFailure => []
  | .response (.failed _ _) => []
  | .response (.json body) => body.appointments.getD []

/-! ### Session context (src/unnamed/part_000, `AuthProvider`) -/

/-- `signIn` (auth-context): builds a session with the normalized email and
`expiresAt = Date.now() + 24 * 60 * 60 * 1000`; the password is unused and
the session id is generated from the clock and a random suffix
(parameterized here). -/
def signIn (now : Int) (sessionId : JSString) (email : JSString)
    (_password : JSString) : Session :=
  { sessionId := sessionId
    email := normalizeEmail email
    expiresAt := now + 24 * 60 * 60 * 1000 }

/-- `isAuthenticated: !!session` (auth-context, the `value` object at
src/unnamed/part_000 lines 286-292). The `expiresAt` field of the session
is never read. -/
def isAuthenticated (session : Option Session) : Bool :=
  session.isSome

/-! ### Demographics submission flow
(src/patient-portal/src/app/intake/demographics/page.tsx, `onSubmit`) -/

/-- Observable outcome of the demographics `onSubmit` handler. -/
inductive SubmitOutcome where
  | noSessionEmail
  | errorShown
  | navigateToHub
deriving DecidableEq

/-- `onSubmit` (demographics page lines 36-85): bail out without a session
email; look the patient up; when absent, create it and look it up again,
throwing `'Failed to create or find patient'` when the second lookup is
still `null`; then update demographics and navigate to the hub. Any thrown
error is caught and shown as a generic error message. -/
def demographicsOnSubmit (email : Option JSString)
    (firstLookup : ClientFetch (Option Patient))
    (createCall : ClientFetch CreatedPatientBody)
    (secondLookup : ClientFetch (Option Patient))
    (updateCall : ClientFetch UpdatedPatientBody) : SubmitOutcome :=
  match email with
  | none => .noSessionEmail
  | some e =>
    match clientFindPatientByEmail e firstLookup with
    | some _ =>
      match clientUpdatePatientDemographics updateCall with
      | .error _ => .errorShown
      | .ok _ => .navigateToHub
    | none =>
      match clientCreatePatient createCall with
      | .error _ => .errorShown
      | .ok _createdId =>
        match clientFindPatientByEmail e secondLookup with
        | none => .errorShown
        | some _ =>
          match clientUpdatePatientDemographics updateCall with
          | .error _ => .errorShown
          | .ok _ => .navigateToHub

/-! ### Hub page (src/unnamed/part_005) -/

/-- Observable outcome of the hub's `loadPatientData` effect. -/
inductive HubView where
  | redirectLogin
  | redirectDemographics
  | dashboard (patient : Patient) (forms : List FormTask)
      (appointments : List Appointment)
deriving DecidableEq

/-- `loadPatientData` (hub page lines 22-59): redirect to login without an
email; redirect to the demographics form when the lookup yields `null`;
otherwise show the dashboard with the fetched forms and appointments. The
`catch` branch (a retryable error screen) is unreachable from the lookup
because `clientFindPatientByEmail` never throws. -/
def loadPatientData (email : Option JSString)
    (lookup : ClientFetch (Option Patient))
    (formsFetch : ClientFetch FormsBody)
    (apptsFetch : ClientFetch AppointmentsBody) : HubView :=
  match email with
  | none => .redirectLogin
  | some e =>
    match clientFindPatientByEmail e lookup with
    | none => .redirectDemographics
    | some p =>
      .dashboard p (clientGetFormsForPatient formsFetch)
        (clientGetUpcomingAppointments apptsFetch)

/-- `getNextAppointment` (hub page lines 84-93): `null` on an empty list;
otherwise filter to strictly-future appointments, sort ascending by
`startsAt` (JavaScript `sort` is stable; the comparator subtracts the parsed
times), and return the first or `null`. -/
def getNextAppointment (now : Int) (appointments : List Appointment) :
    Option Appointment :=
  if appointments.length = 0 then none
  else
    let upcoming :=
      (appointments.filter (fun apt => now < apt.startsAt)).mergeSort
        (fun a b => a.startsAt ≤ b.startsAt)
    upcoming.head?


/-! ### Auxiliary definitions used by the claim theorems -/

/-- Case-insensitive equality of two JS strings (the comparison the spec
calls "exact case-insensitive equality check"). -/
def ciEq (a b : JSString) : Prop := jsToLower a = jsToLower b

instance (a b : JSString) : Decidable (ciEq a b) :=
  inferInstanceAs (Decidable (jsToLower a = jsToLower b))

/-- A session whose `expiresAt` (epoch ms 0) lies in the past at any later
access time. -/
def expiredSession : Session :=
  { sessionId := "session-1".data, email := "user@example.com".data, expiresAt := 0 }

/-- The successful `createClient` response body of the C1 failing run: the
create call returns a valid record with id `"42"`. -/
def createdPatient42 : CreatedPatientBody :=
  { id := "42".data
    firstName := "New".data
    lastName := "Patient".data
    email := "new.patient@example.com".data
    phone := none }

/-- A remote candidate whose email does not match the witness queries. -/
def witnessUserOther : RemoteUser :=
  { id := "1".data
    first_name := "Ann".data
    last_name := "Other".data
    email := "Other@x.com".data
    dob := none
    sex := none
    phone_number := none }

/-- The remote candidate the witness lookup matches case-insensitively. -/
def witnessUserJane : RemoteUser :=
  { id := "42".data
    first_name := "Jane".data
    last_name := "Doe".data
    email := "Existing.Patient@Example.com".data
    dob := none
    sex := none
    phone_number := none }

/-! ### Character-level lemmas -/

theorem toNat_ofNat_valid {n : Nat} (h : n < 55296) : (Char.ofNat n).toNat = n := by
  unfold Char.ofNat
  rw [dif_pos (Or.inl h)]
  simp [Char.ofNatAux, Char.toNat, UInt32.toNat, BitVec.toNat_ofNatLt]

theorem toLowerChar_toNat (c : Char) :
    (toLowerChar c).toNat =
      if 65 ≤ c.toNat ∧ c.toNat ≤ 90 then c.toNat + 32 else c.toNat := by
  unfold toLowerChar
  split
  · next h => rw [toNat_ofNat_valid (by omega)]
  · rfl

theorem toLowerChar_idem (c : Char) : toLowerChar (toLowerChar c) = toLowerChar c := by
  unfold toLowerChar
  split
  · next h =>
    rw [if_neg]
    rw [toNat_ofNat_valid (by omega)]
    omega
  · rfl

theorem isJsSpace_toLowerChar (c : Char) : isJsSpace (toLowerChar c) = isJsSpace c := by
  simp only [isJsSpace]
  rw [decide_eq_decide, toLowerChar_toNat]
  split
  · next h => omega
  · exact Iff.rfl

/-! ### String-level normalization lemmas -/

theorem jsToLower_idem (s : JSString) : jsToLower (jsToLower s) = jsToLower s := by
  simp only [jsToLower, List.map_map]
  exact List.map_congr_left fun c _ => toLowerChar_idem c

/-- The head of `dropWhile p l`, when it exists, does not satisfy `p`. -/
theorem head_dropWhile_not {α : Type} (p : α → Bool) (l : List α) :
    ∀ x, (l.dropWhile p).head? = some x → p x = false := by
  induction l with
  | nil => intro x hx; simp [List.dropWhile] at hx
  | cons a t ih =>
    intro x hx
    rw [List.dropWhile_cons] at hx
    by_cases ha : p a = true
    · rw [if_pos ha] at hx
      exact ih x hx
    · rw [if_neg ha] at hx
      simp at hx
      subst hx
      exact Bool.eq_false_iff.mpr ha

/-- A list whose head does not satisfy `p` is untouched by `dropWhile p`. -/
theorem dropWhile_eq_self_of_head {α : Type} (p : α → Bool) (l : List α)
    (h : ∀ x, l.head? = some x → p x = false) : l.dropWhile p = l := by
  cases l with
  | nil => rfl
  | cons a t =>
    have ha : p a = false := h a rfl
    rw [List.dropWhile_cons, if_neg (by simp [ha])]

theorem dropWhile_idem {α : Type} (p : α → Bool) (l : List α) :
    (l.dropWhile p).dropWhile p = l.dropWhile p :=
  dropWhile_eq_self_of_head p _ (head_dropWhile_not p l)

/-- `dropWhile` produces a suffix: some prefix was dropped. -/
theorem dropWhile_is_suffix {α : Type} (p : α → Bool) (l : List α) :
    ∃ t, l = t ++ l.dropWhile p := by
  induction l with
  | nil => exact ⟨[], rfl⟩
  | cons a t ih =>
    rw [List.dropWhile_cons]
    by_cases ha : p a = true
    · rw [if_pos ha]
      obtain ⟨u, hu⟩ := ih
      exact ⟨a :: u, by simp [← hu]⟩
    · rw [if_neg ha]
      exact ⟨[], rfl⟩

theorem jsTrim_idem (s : JSString) : jsTrim (jsTrim s) = jsTrim s := by
  set p := isJsSpace
  set a := s.dropWhile p with ha
  set b := a.reverse.dropWhile p with hb
  have hts : jsTrim s = b.reverse := rfl
  -- b.reverse is a prefix of a, so its head (if any) is a's head, which fails p
  have hbrev : ∀ x, b.reverse.head? = some x → p x = false := by
    intro x hx
    obtain ⟨t, ht⟩ := dropWhile_is_suffix p a.reverse
    have hae : a = b.reverse ++ t.reverse := by
      have := congrArg List.reverse ht
      simpa [hb] using this
    have hxa : a.head? = some x := by
      rw [hae]
      cases hbx : b.reverse with
      | nil => rw [hbx] at hx; simp at hx
      | cons y u =>
        rw [hbx] at hx
        simp at hx
        simp [hbx, hx]
    exact head_dropWhile_not p s x (ha ▸ hxa)
  have h1 : b.reverse.dropWhile p = b.reverse :=
    dropWhile_eq_self_of_head p _ hbrev
  have h2 : b.dropWhile p = b := hb ▸ dropWhile_idem p a.reverse
  show ((b.reverse.dropWhile p).reverse.dropWhile p).reverse = b.reverse
  rw [h1, List.reverse_reverse, h2]

theorem jsToLower_jsTrim (s : JSString) : jsToLower (jsTrim s) = jsTrim (jsToLower s) := by
  have hp : isJsSpace ∘ toLowerChar = isJsSpace :=
    funext fun c => isJsSpace_toLowerChar c
  simp only [jsToLower, jsTrim, List.map_reverse, List.dropWhile_map, hp]
  nth_rewrite 2 [← List.map_reverse]
  rw [List.dropWhile_map, hp]

theorem normalizeEmail_idem (x : JSString) :
    normalizeEmail (normalizeEmail x) = normalizeEmail x := by
  unfold normalizeEmail
  rw [jsToLower_jsTrim, jsToLower_idem, jsTrim_idem]

/-- A normalized email is already lower-case. -/
theorem jsToLower_normalizeEmail (x : JSString) :
    jsToLower (normalizeEmail x) = normalizeEmail x := by
  unfold normalizeEmail
  rw [jsToLower_jsTrim, jsToLower_idem]


/-! ### Helper lemmas about the request plumbing -/

/-- Whatever is reported as sent by `makeGraphQLRequest` is the `variables`
payload it was given. -/
theorem makeGraphQLRequest_sent {V δ : Type} (apiKey : JSString) (vars : V)
    (outcome : FetchOutcome (GraphQLResponse δ)) (v : V)
    (h : (makeGraphQLRequest apiKey vars outcome).1 = some v) : v = vars := by
  unfold makeGraphQLRequest at h
  split at h
  · simp at h
  · simp at h
    exact h.symm

/-- A successful `makeGraphQLRequest` can only come from a 2xx response whose
body has no GraphQL `errors` payload, and it returns that body's `data`. -/
theorem makeGraphQLRequest_ok_inv {V δ : Type} (apiKey : JSString) (vars : V)
    (outcome : FetchOutcome (GraphQLResponse δ)) (s : Option V) (d : Option δ)
    (h : makeGraphQLRequest apiKey vars outcome = (s, .ok d)) :
    ∃ body, outcome = .ok body ∧ body.errors = none ∧ d = body.data := by
  unfold makeGraphQLRequest at h
  split at h
  · simp at h
  · cases outcome with
    | networkFailure => simp at h
    | httpFailure status b => simp at h
    | ok body =>
      refine ⟨body, rfl, ?_, ?_⟩
      · by_cases he : body.errors.isSome
        · simp [he] at h
        · exact Option.not_isSome_iff_eq_none.mp he
      · by_cases he : body.errors.isSome
        · simp [he] at h
        · simp [he] at h
          exact h.2.symm

/-- Evaluation of `makeGraphQLRequest` on a 2xx response when a key is
present. -/
theorem makeGraphQLRequest_ok_eval {V δ : Type} (apiKey : JSString) (vars : V)
    (body : GraphQLResponse δ) (hkey : apiKey ≠ []) :
    makeGraphQLRequest apiKey vars (.ok body) =
      (some vars,
        if body.errors.isSome then .error .graphqlErrors else .ok body.data) := by
  unfold makeGraphQLRequest
  rw [if_neg hkey]

/-- A failed fetch, a non-2xx status, or a GraphQL `errors` payload always
surfaces as a thrown error of `makeGraphQLRequest` (whatever the key). -/
theorem makeGraphQLRequest_snd_error {V δ : Type} (apiKey : JSString) (vars : V)
    (outcome : FetchOutcome (GraphQLResponse δ))
    (h : outcome = FetchOutcome.networkFailure ∨
      (∃ st b, outcome = .httpFailure st b) ∨
      (∃ body, outcome = .ok body ∧ body.errors.isSome)) :
    ∃ e, (makeGraphQLRequest apiKey vars outcome).2 = .error e := by
  unfold makeGraphQLRequest
  by_cases hk : apiKey = []
  · rw [if_pos hk]
    exact ⟨.missingApiKey, rfl⟩
  · rw [if_neg hk]
    rcases h with h | ⟨st, b, h⟩ | ⟨body, h, he⟩
    · subst h; exact ⟨.networkError, rfl⟩
    · subst h; exact ⟨.httpError st, rfl⟩
    · subst h
      exact ⟨.graphqlErrors, by simp [he]⟩

/-- The client-side post-filter: `none` when no candidate matches the
normalized email case-insensitively, and the unique matching candidate
otherwise. -/
theorem selectUserByEmail_spec (email : JSString) (users : List RemoteUser) :
    ((∀ u ∈ users, ¬ ciEq u.email (normalizeEmail email)) →
      selectUserByEmail (normalizeEmail email) (some ⟨some users⟩) = none) ∧
    (∀ u ∈ users, ciEq u.email (normalizeEmail email) →
      (∀ v ∈ users, ciEq v.email (normalizeEmail email) → v = u) →
      selectUserByEmail (normalizeEmail email) (some ⟨some users⟩) = some u) := by
  constructor
  · intro h
    show (if users.length > 0 then
        users.find? (fun u => jsToLower u.email == normalizeEmail email) else none) = none
    by_cases hl : users.length > 0
    · rw [if_pos hl]
      apply List.find?_eq_none.mpr
      intro x hx
      simp only [beq_iff_eq, decide_eq_true_eq]
      intro heq
      exact h x hx (by unfold ciEq; rw [jsToLower_normalizeEmail]; exact heq)
    · rw [if_neg hl]
  · intro u hu hciu huniq
    have hpredu : (jsToLower u.email == normalizeEmail email) = true := by
      rw [beq_iff_eq]
      unfold ciEq at hciu
      rw [jsToLower_normalizeEmail] at hciu
      exact hciu
    show (if users.length > 0 then
        users.find? (fun u => jsToLower u.email == normalizeEmail email) else none) = some u
    rw [if_pos (List.length_pos.mpr (List.ne_nil_of_mem hu))]
    cases hfind : users.find? (fun w => jsToLower w.email == normalizeEmail email) with
    | none =>
      exact absurd hpredu (List.find?_eq_none.mp hfind u hu)
    | some w =>
      have hw := List.find?_some hfind
      have hciw : ciEq w.email (normalizeEmail email) := by
        unfold ciEq
        rw [jsToLower_normalizeEmail]
        exact beq_iff_eq.mp hw
      rw [huniq w (List.mem_of_find?_eq_some hfind) hciw]

/-- The server-side lookup on a clean 2xx response reduces to the
post-filter. -/
theorem serverFindPatientByEmail_okData (apiKey email : JSString)
    (usersData : Option UsersData) (hkey : apiKey ≠ []) :
    (serverFindPatientByEmail apiKey email (.ok ⟨none, usersData⟩)).2 =
      match selectUserByEmail (normalizeEmail email) usersData with
      | some u => .ok (some (mapRemoteUser u))
      | none => .ok none := by
  simp only [serverFindPatientByEmail]
  rw [makeGraphQLRequest_ok_eval apiKey _ _ hkey]
  split
  · next sent e heq =>
    simp [Prod.mk.injEq] at heq
  · next sent d heq =>
    simp [Prod.mk.injEq] at heq
    rw [heq.2]
    cases hsel : selectUserByEmail (normalizeEmail email) d <;> rfl

/-- For a present email parameter, the route's `!email` guard fires exactly
on the empty string. -/
theorem isEmpty_eq_false_of_ne_nil (email : JSString) (hemail : email ≠ []) :
    email.isEmpty = false := by
  cases email with
  | nil => exact absurd rfl hemail
  | cons c t => rfl

/-- The lookup route on a non-empty email and a clean 2xx response reduces
to the post-filter. -/
theorem patientGET_okData (apiKey email : JSString)
    (usersData : Option UsersData) (hkey : apiKey ≠ []) (hemail : email ≠ []) :
    (patientGET apiKey (some email) (.ok ⟨none, usersData⟩)).2 =
      match selectUserByEmail (normalizeEmail email) usersData with
      | some u => .json (some (mapRemoteUser u))
      | none => .json none := by
  simp only [patientGET, isEmpty_eq_false_of_ne_nil email hemail,
    Bool.false_eq_true, if_false]
  rw [makeGraphQLRequest_ok_eval apiKey _ _ hkey]
  split
  · next sent e heq =>
    simp [Prod.mk.injEq] at heq
  · next sent d heq =>
    simp [Prod.mk.injEq] at heq
    rw [heq.2]
    cases hsel : selectUserByEmail (normalizeEmail email) d <;> rfl

/-- Unfolding of `getNextAppointment`. -/
theorem getNextAppointment_eq (now : Int) (appts : List Appointment) :
    getNextAppointment now appts =
      if appts.length = 0 then none
      else ((appts.filter (fun apt => decide (now < apt.startsAt))).mergeSort
        (fun a b => decide (a.startsAt ≤ b.startsAt))).head? := rfl

/-! ## Claim theorems -/

/-- **C6**: the email normalization (`toLowerCase().trim()`) is idempotent —
`normalize (normalize x) = normalize x` for every string — and identifies
the case variants `"Foo@Bar.com"` and `"foo@bar.com"`. -/
theorem claim_C6_normalize_idempotent :
    (∀ x : JSString, normalizeEmail (normalizeEmail x) = normalizeEmail x) ∧
    normalizeEmail "Foo@Bar.com".data = normalizeEmail "foo@bar.com".data :=
  ⟨normalizeEmail_idem, by decide⟩

/-- **C9**: the client-side forms/appointments fetchers are total functions
into lists (they cannot propagate an error); on a network failure, on any
non-2xx response, and on a 2xx body missing the `forms`/`appointments` field
they return the empty list. -/
theorem claim_C9_forms_appointments_degrade_to_empty :
    clientGetFormsForPatient .networkFailure = [] ∧
    (∀ (status : Nat) (msg : JSString),
      clientGetFormsForPatient (.response (.failed status msg)) = []) ∧
    clientGetFormsForPatient (.response (.json ⟨none⟩)) = [] ∧
    clientGetUpcomingAppointments .networkFailure = [] ∧
    (∀ (status : Nat) (msg : JSString),
      clientGetUpcomingAppointments (.response (.failed status msg)) = []) ∧
    clientGetUpcomingAppointments (.response (.json ⟨none⟩)) = [] :=
  ⟨rfl, fun _ _ => rfl, rfl, rfl, fun _ _ => rfl, rfl⟩

/-- **C7 counterexample**: the claim says a session whose `expiresAt` lies in
the past is treated as unauthenticated on the next access; but
`isAuthenticated` is `!!session` and never reads `expiresAt`, so at access
time 1 the session expired at time 0 is still authenticated. -/
theorem claim_C7_counterexample :
    expiredSession.expiresAt < 1 ∧ isAuthenticated (some expiredSession) = true :=
  ⟨by decide, rfl⟩

/-- **C7 amended**: the auth context treats the user as authenticated exactly
when a session object exists; `expiresAt` is recorded by `signIn` but never
consulted, so even a session whose `expiresAt` lies in the past is still
treated as authenticated until the in-memory session is cleared. -/
theorem claim_C7_amended_no_expiry_check :
    (∀ (s : Session) (now : Int), s.expiresAt < now →
      isAuthenticated (some s) = true) ∧
    isAuthenticated none = false :=
  ⟨fun _ _ _ => rfl, rfl⟩

/-- **C7 witness**: the amended claim at a concrete session expired at time 5,
accessed at time 6. -/
theorem claim_C7_witness :
    isAuthenticated (some ⟨"s-9".data, "u@x.com".data, 5⟩) = true :=
  claim_C7_amended_no_expiry_check.1 ⟨"s-9".data, "u@x.com".data, 5⟩ 6 (by decide)

/-- **C8**: with an empty (absent) API key, `makeGraphQLRequest` fails with
the configuration error and sends nothing over the network (the `variables`
component is `none`), for every outcome the fetch could have had; and the
server service constructor rejects an absent key at construction time. -/
theorem claim_C8_missing_api_key_is_fatal (V δ : Type) :
    (∀ (vars : V) (outcome : FetchOutcome (GraphQLResponse δ)),
      makeGraphQLRequest ([] : JSString) vars outcome =
        (none, .error .missingApiKey)) ∧
    (∀ envApiKey : Option JSString, envApiKey.getD [] = [] →
      healthieServerServiceApiKey envApiKey = .error .missingApiKey) := by
  constructor
  · intro vars outcome
    rfl
  · intro envApiKey h
    unfold healthieServerServiceApiKey
    simp [h]

/-- **C8 witness**: the theorem at a concrete unset environment variable and
a concrete in-flight outcome. -/
theorem claim_C8_witness :
    healthieServerServiceApiKey none = .error .missingApiKey ∧
    @makeGraphQLRequest JSString UsersData [] "x@y.z".data .networkFailure =
      (none, .error .missingApiKey) :=
  ⟨(claim_C8_missing_api_key_is_fatal JSString UsersData).2 none (by decide),
    (claim_C8_missing_api_key_is_fatal JSString UsersData).1 "x@y.z".data .networkFailure⟩

/-- **C1**: evaluation of the demographics flow at the failing input. The
create call succeeds (`createPatient` returns id `"42"`), the immediately
following `findPatientByEmail` legitimately returns `null` (a 200 with
`{ patient: null }`, e.g. an indexing delay), and the demographics update
route would succeed — yet `onSubmit` throws
`'Failed to create or find patient'` and ends in the error state: the
follow-up lookup, not the create call's own response, decides the flow's
success, contradicting the claim. -/
theorem claim_C1_null_lookup_after_create_is_failure :
    clientCreatePatient (.response (.json createdPatient42)) = .ok "42".data ∧
    demographicsOnSubmit (some "new.patient@example.com".data)
        (.response (.json none))
        (.response (.json createdPatient42))
        (.response (.json none))
        (.response (.json
          { id := "42".data
            firstName := "New".data
            lastName := "Patient".data
            email := "new.patient@example.com".data
            dob := some "1990-01-01".data
            sexAtBirth := some "female".data
            phone := none })) = .errorShown :=
  ⟨rfl, rfl⟩

/-- **C2 counterexample**: a lookup whose network call fails is not surfaced
to the calling flow as a retryable state — the hub routes it to the
demographics form exactly as it routes a legitimate `null` no-match, and the
client-side `findPatientByEmail` returns the very same `none` for a network
failure as for a 200 `{ patient: null }`. -/
theorem claim_C2_counterexample :
    loadPatientData (some "existing.patient@example.com".data) .networkFailure
        .networkFailure .networkFailure = .redirectDemographics ∧
    clientFindPatientByEmail "existing.patient@example.com".data .networkFailure =
      clientFindPatientByEmail "existing.patient@example.com".data
        (.response (.json none)) :=
  ⟨rfl, rfl⟩

/-- **C2 amended**: at the proxy layer the distinction does hold — for a
request that passes the route's `!email` guard (a present, non-empty email
parameter), a failed network call or a GraphQL-level `errors` payload makes
the lookup route answer 500 `{ error: 'Failed to find patient' }`, and a
200 `{ patient: null }` can only come from a clean remote response — but
the client-side `findPatientByEmail` converts every failure (thrown fetch
error or non-2xx status) into the same `null` as a legitimate no-match, so
the calling flow cannot distinguish them. -/
theorem claim_C2_amended_failures_nulled_client_side :
    (∀ (apiKey email : JSString), email ≠ [] →
      (patientGET apiKey (some email) .networkFailure).2 =
        .failed 500 "Failed to find patient".data) ∧
    (∀ (apiKey email : JSString) (body : GraphQLResponse UsersData), email ≠ [] →
      body.errors.isSome →
      (patientGET apiKey (some email) (.ok body)).2 =
        .failed 500 "Failed to find patient".data) ∧
    (∀ (apiKey email : JSString) (outcome : FetchOutcome (GraphQLResponse UsersData)),
      (patientGET apiKey (some email) outcome).2 = .json none →
      ∃ body, outcome = .ok body ∧ body.errors = none) ∧
    (∀ email : JSString, clientFindPatientByEmail email .networkFailure = none) ∧
    (∀ (email : JSString) (status : Nat) (msg : JSString),
      clientFindPatientByEmail email (.response (.failed status msg)) = none) := by
  refine ⟨?_, ?_, ?_, fun _ => rfl, fun _ _ _ => rfl⟩
  · intro apiKey email hemail
    obtain ⟨e, he⟩ := makeGraphQLRequest_snd_error apiKey (normalizeEmail email)
      (FetchOutcome.networkFailure : FetchOutcome (GraphQLResponse UsersData))
      (Or.inl rfl)
    simp only [patientGET, isEmpty_eq_false_of_ne_nil email hemail,
      Bool.false_eq_true, if_false]
    split
    · rfl
    · next sent usersData heq =>
      rw [heq] at he
      simp at he
  · intro apiKey email body hemail hb
    obtain ⟨e, he⟩ := makeGraphQLRequest_snd_error apiKey (normalizeEmail email)
      (.ok body) (Or.inr (Or.inr ⟨body, rfl, hb⟩))
    simp only [patientGET, isEmpty_eq_false_of_ne_nil email hemail,
      Bool.false_eq_true, if_false]
    split
    · rfl
    · next sent usersData heq =>
      rw [heq] at he
      simp at he
  · intro apiKey email outcome h
    simp only [patientGET] at h
    split at h
    · simp at h
    · split at h
      · simp at h
      · next sent usersData heq =>
        obtain ⟨body, hbo, hbe, _⟩ :=
          makeGraphQLRequest_ok_inv apiKey (normalizeEmail email) outcome sent usersData heq
        exact ⟨body, hbo, hbe⟩

/-- **C2 witness**: the amended claim at a concrete non-empty email, a
concrete GraphQL-error response and a concrete clean no-match response. -/
theorem claim_C2_witness :
    (patientGET "k".data (some "x@y.z".data)
        (.ok ⟨some [], none⟩)).2 = .failed 500 "Failed to find patient".data ∧
    ∃ body, (FetchOutcome.ok (⟨none, none⟩ : GraphQLResponse UsersData)) = .ok body ∧
      body.errors = none :=
  ⟨claim_C2_amended_failures_nulled_client_side.2.1 "k".data "x@y.z".data
      ⟨some [], none⟩ (by decide) rfl,
    claim_C2_amended_failures_nulled_client_side.2.2.1 "k".data "x@y.z".data
      (.ok ⟨none, none⟩) rfl⟩

/-- **C3**: on a clean remote response with candidate list `users`, both the
server-side `findPatientByEmail` and the lookup route return `null` (not an
error) when no candidate's email equals the normalized input under
case-insensitive comparison, and return the single matching candidate mapped
to the `Patient` shape when exactly one case-insensitive match exists. -/
theorem claim_C3_lookup_match_semantics (apiKey email : JSString)
    (users : List RemoteUser) (hkey : apiKey ≠ []) (hemail : email ≠ []) :
    ((∀ u ∈ users, ¬ ciEq u.email (normalizeEmail email)) →
      (serverFindPatientByEmail apiKey email (.ok ⟨none, some ⟨some users⟩⟩)).2 =
        .ok none ∧
      (patientGET apiKey (some email) (.ok ⟨none, some ⟨some users⟩⟩)).2 =
        .json none) ∧
    (∀ u ∈ users, ciEq u.email (normalizeEmail email) →
      (∀ v ∈ users, ciEq v.email (normalizeEmail email) → v = u) →
      (serverFindPatientByEmail apiKey email (.ok ⟨none, some ⟨some users⟩⟩)).2 =
        .ok (some (mapRemoteUser u)) ∧
      (patientGET apiKey (some email) (.ok ⟨none, some ⟨some users⟩⟩)).2 =
        .json (some (mapRemoteUser u))) := by
  constructor
  · intro h
    have hsel := (selectUserByEmail_spec email users).1 h
    rw [serverFindPatientByEmail_okData apiKey email _ hkey,
      patientGET_okData apiKey email _ hkey hemail, hsel]
    exact ⟨rfl, rfl⟩
  · intro u hu hciu huniq
    have hsel := (selectUserByEmail_spec email users).2 u hu hciu huniq
    rw [serverFindPatientByEmail_okData apiKey email _ hkey,
      patientGET_okData apiKey email _ hkey hemail, hsel]
    exact ⟨rfl, rfl⟩

/-- **C3 witness**: the theorem at a concrete two-candidate list — a
differently-cased unique match is found, and a query matching no candidate
yields `null`. -/
theorem claim_C3_witness :
    (serverFindPatientByEmail "k".data "existing.patient@example.com ".data
        (.ok ⟨none, some ⟨some [witnessUserOther, witnessUserJane]⟩⟩)).2 =
      .ok (some (mapRemoteUser witnessUserJane)) ∧
    (serverFindPatientByEmail "k".data "nobody@example.com".data
        (.ok ⟨none, some ⟨some [witnessUserOther, witnessUserJane]⟩⟩)).2 =
      .ok none :=
  ⟨((claim_C3_lookup_match_semantics "k".data "existing.patient@example.com ".data
        [witnessUserOther, witnessUserJane] (by decide) (by decide)).2 witnessUserJane
      (by decide) (by decide) (by decide)).1,
    ((claim_C3_lookup_match_semantics "k".data "nobody@example.com".data
        [witnessUserOther, witnessUserJane] (by decide) (by decide)).1 (by decide)).1⟩

/-- **C4**: whenever the remote `createClient`/`updateUser` payload carries a
non-empty validation-message list, the POST and PATCH routes answer 400 with
the formatted field-level messages — even when a (partial) `user` record is
present in the same payload — and never a success body. -/
theorem claim_C4_validation_messages_always_fail (apiKey : JSString)
    (hkey : apiKey ≠ [])
    (email password firstName lastName phone : Option JSString)
    (hemail : jsFalsy email = false) (hpw : jsFalsy password = false)
    (hfn : jsFalsy firstName = false) (hln : jsFalsy lastName = false)
    (id : JSString) (hid : id ≠ []) (demographics : DemographicsBody)
    (createUser : Option CreateClientUser) (updUser : Option RemoteUser)
    (msgs : List FieldMessage) (hmsgs : msgs ≠ []) :
    (patientPOST apiKey email password firstName lastName phone
        (.ok ⟨none, some ⟨some ⟨createUser, some msgs⟩⟩⟩)).2 =
      .failed 400 (formatValidationErrors msgs) ∧
    (patientPATCH apiKey (some id) (some demographics)
        (.ok ⟨none, some ⟨some ⟨updUser, some msgs⟩⟩⟩)).2 =
      .failed 400 (formatValidationErrors msgs) := by
  have hlen : msgs.length > 0 := List.length_pos.mpr hmsgs
  constructor
  · have hcond : (jsFalsy email || jsFalsy password || jsFalsy firstName ||
        jsFalsy lastName) = false := by
      simp [hemail, hpw, hfn, hln]
    simp only [patientPOST, hcond, Bool.false_eq_true, if_false]
    rw [makeGraphQLRequest_ok_eval apiKey _ _ hkey]
    split
    · next sent e heq =>
      simp [Prod.mk.injEq] at heq
    · next sent d heq =>
      simp [Prod.mk.injEq] at heq
      rw [← heq.2]
      rw [if_pos (show ((((some (CreateClientData.mk (some ⟨createUser, some msgs⟩))).bind
        (fun d => d.createClient)).bind (fun c => c.messages)).getD []).length > 0 from hlen)]
      rfl
  · have hidb : id.isEmpty = false := by
      cases id with
      | nil => exact absurd rfl hid
      | cons c t => rfl
    simp only [patientPATCH, hidb, Bool.false_eq_true, if_false]
    rw [makeGraphQLRequest_ok_eval apiKey _ _ hkey]
    split
    · next sent e heq =>
      simp [Prod.mk.injEq] at heq
    · next sent d heq =>
      simp [Prod.mk.injEq] at heq
      rw [← heq.2]
      rw [if_pos (show ((((some (UpdateUserData.mk (some ⟨updUser, some msgs⟩))).bind
        (fun d => d.updateUser)).bind (fun c => c.messages)).getD []).length > 0 from hlen)]
      rfl

/-- **C4 witness**: the theorem at a concrete mutation response that carries
both a partial user record and one validation message. -/
theorem claim_C4_witness :
    (patientPOST "k".data (some "A@B.c".data) (some "pw".data) (some "Jane".data)
        (some "Doe".data) none
        (.ok ⟨none, some ⟨some ⟨some ⟨"9".data, "Jane".data, "Doe".data,
          "a@b.c".data, none⟩, some [⟨"email".data, "taken".data⟩]⟩⟩⟩)).2 =
      .failed 400 (formatValidationErrors [⟨"email".data, "taken".data⟩]) ∧
    (patientPATCH "k".data (some "9".data)
        (some ⟨"1990-01-01".data, "female".data⟩)
        (.ok ⟨none, some ⟨some ⟨some ⟨"9".data, "Jane".data, "Doe".data,
            "a@b.c".data, none, none, none⟩,
          some [⟨"email".data, "taken".data⟩]⟩⟩⟩)).2 =
      .failed 400 (formatValidationErrors [⟨"email".data, "taken".data⟩]) :=
  claim_C4_validation_messages_always_fail "k".data (by decide)
    (some "A@B.c".data) (some "pw".data) (some "Jane".data) (some "Doe".data) none
    (by decide) (by decide) (by decide) (by decide)
    "9".data (by decide) ⟨"1990-01-01".data, "female".data⟩
    (some ⟨"9".data, "Jane".data, "Doe".data, "a@b.c".data, none⟩)
    (some ⟨"9".data, "Jane".data, "Doe".data, "a@b.c".data, none, none, none⟩)
    [⟨"email".data, "taken".data⟩] (by decide)

/-- **C5**: the email variable a lookup or create call puts on the wire is
always the normalized (lower-cased, trimmed) form of the input email, and
every `Patient` the lookups construct is the image of a remote user record
(whose mandatory `email` field it carries verbatim). -/
theorem claim_C5_normalized_email_and_presence :
    (∀ (apiKey email : JSString) (outcome : FetchOutcome (GraphQLResponse UsersData))
      (v : JSString),
      (patientGET apiKey (some email) outcome).1 = some v → v = normalizeEmail email) ∧
    (∀ (apiKey email : JSString) (outcome : FetchOutcome (GraphQLResponse UsersData))
      (v : JSString),
      (serverFindPatientByEmail apiKey email outcome).1 = some v →
      v = normalizeEmail email) ∧
    (∀ (apiKey e : JSString) (password firstName lastName phone : Option JSString)
      (outcome : FetchOutcome (GraphQLResponse CreateClientData))
      (input : CreateClientInput),
      (patientPOST apiKey (some e) password firstName lastName phone outcome).1 =
        some input →
      input.email = normalizeEmail e) ∧
    (∀ u : RemoteUser, (mapRemoteUser u).email = u.email) ∧
    (∀ (apiKey email : JSString) (outcome : FetchOutcome (GraphQLResponse UsersData))
      (p : Patient),
      (serverFindPatientByEmail apiKey email outcome).2 = .ok (some p) →
      ∃ u : RemoteUser, p = mapRemoteUser u) := by
  refine ⟨?_, ?_, ?_, fun u => rfl, ?_⟩
  · intro apiKey email outcome v h
    simp only [patientGET] at h
    split at h
    · simp at h
    · split at h
      · next sent heq =>
        exact makeGraphQLRequest_sent apiKey (normalizeEmail email) outcome v
          (by rw [heq]; simpa using h)
      · next sent usersData heq =>
        split at h <;>
          exact makeGraphQLRequest_sent apiKey (normalizeEmail email) outcome v
            (by rw [heq]; simpa using h)
  · intro apiKey email outcome v h
    simp only [serverFindPatientByEmail] at h
    split at h
    · next sent e heq =>
      exact makeGraphQLRequest_sent apiKey (normalizeEmail email) outcome v
        (by rw [heq]; simpa using h)
    · next sent usersData heq =>
      split at h <;>
        exact makeGraphQLRequest_sent apiKey (normalizeEmail email) outcome v
          (by rw [heq]; simpa using h)
  · intro apiKey e password firstName lastName phone outcome input h
    simp only [patientPOST] at h
    split at h
    · simp at h
    · set input0 : CreateClientInput :=
        { email := normalizeEmail ((some e).getD [])
          first_name := firstName.getD []
          last_name := lastName.getD []
          phone_number := phone
          dont_send_welcome := true
          skip_set_password_state := true } with hinput0
      split at h
      · next sent heq =>
        exact (congrArg CreateClientInput.email (makeGraphQLRequest_sent apiKey input0
          outcome input (by rw [heq]; simpa using h))).trans rfl
      · next sent data heq =>
        split at h
        · exact (congrArg CreateClientInput.email (makeGraphQLRequest_sent apiKey input0
            outcome input (by rw [heq]; simpa using h))).trans rfl
        · split at h <;>
            exact (congrArg CreateClientInput.email (makeGraphQLRequest_sent apiKey input0
              outcome input (by rw [heq]; simpa using h))).trans rfl
  · intro apiKey email outcome p h
    simp only [serverFindPatientByEmail] at h
    split at h
    · simp at h
    · next sent usersData heq =>
      split at h
      · next u husel =>
        simp at h
        exact ⟨u, h.symm⟩
      · simp at h

/-- **C5 witness**: the theorem at a concrete mixed-case, padded email: the
wire variable of the lookup route is its normalized form. -/
theorem claim_C5_witness :
    (" EXIST@X.Com ".data.map toLowerChar |> jsTrim) = normalizeEmail " EXIST@X.Com ".data ∧
    ("exist@x.com".data : JSString) = normalizeEmail " EXIST@X.Com ".data :=
  ⟨rfl,
    claim_C5_normalized_email_and_presence.1 "k".data " EXIST@X.Com ".data
      .networkFailure "exist@x.com".data (by decide)⟩

/-- **C10**: the hub's next-appointment selection yields `null` exactly when
no appointment starts strictly after `now`; otherwise it yields some
appointment of the list that starts strictly in the future and is earliest
among all strictly-future appointments. -/
theorem claim_C10_next_appointment_minimal_future (now : Int)
    (appointments : List Appointment) :
    ((∀ a ∈ appointments, a.startsAt ≤ now) →
      getNextAppointment now appointments = none) ∧
    ((∃ a ∈ appointments, now < a.startsAt) →
      ∃ r, getNextAppointment now appointments = some r) ∧
    (∀ r, getNextAppointment now appointments = some r →
      r ∈ appointments ∧ now < r.startsAt ∧
      ∀ a ∈ appointments, now < a.startsAt → r.startsAt ≤ a.startsAt) := by
  have hperm := List.mergeSort_perm
    (appointments.filter (fun apt => decide (now < apt.startsAt)))
    (fun a b => decide (a.startsAt ≤ b.startsAt))
  refine ⟨?_, ?_, ?_⟩
  · intro h
    rw [getNextAppointment_eq]
    by_cases h0 : appointments.length = 0
    · rw [if_pos h0]
    · rw [if_neg h0]
      have hfe : appointments.filter (fun apt => decide (now < apt.startsAt)) = [] := by
        apply List.filter_eq_nil_iff.mpr
        intro a ha
        simp only [decide_eq_true_eq]
        exact fun hlt => absurd (h a ha) (not_le.mpr hlt)
      rw [hfe, List.mergeSort_nil]
      rfl
  · rintro ⟨a, ha, hlt⟩
    rw [getNextAppointment_eq]
    rw [if_neg (by simp [List.length_eq_zero]; exact List.ne_nil_of_mem ha)]
    have hmem : a ∈ appointments.filter (fun apt => decide (now < apt.startsAt)) :=
      List.mem_filter.mpr ⟨ha, by simpa using hlt⟩
    have hmem2 := (hperm.mem_iff).mpr hmem
    cases hs : (appointments.filter (fun apt => decide (now < apt.startsAt))).mergeSort
        (fun a b => decide (a.startsAt ≤ b.startsAt)) with
    | nil => rw [hs] at hmem2; simp at hmem2
    | cons w t => exact ⟨w, by simp [hs]⟩
  · intro r hr
    rw [getNextAppointment_eq] at hr
    by_cases h0 : appointments.length = 0
    · rw [if_pos h0] at hr
      simp at hr
    · rw [if_neg h0] at hr
      have hsorted := @List.sorted_mergeSort Appointment
        (fun a b => decide (a.startsAt ≤ b.startsAt))
        (fun a b c hab hbc => by
          simp only [decide_eq_true_eq] at *
          omega)
        (fun a b => by
          simp only [Bool.or_eq_true, decide_eq_true_eq]
          omega)
        (appointments.filter (fun apt => decide (now < apt.startsAt)))
      cases hs : (appointments.filter (fun apt => decide (now < apt.startsAt))).mergeSort
          (fun a b => decide (a.startsAt ≤ b.startsAt)) with
      | nil => rw [hs] at hr; simp at hr
      | cons w t =>
        rw [hs] at hr
        simp only [List.head?] at hr
        have hrw : w = r := by simpa using hr
        subst hrw
        have hwmem : w ∈ appointments.filter (fun apt => decide (now < apt.startsAt)) :=
          hperm.mem_iff.mp (by rw [hs]; exact List.mem_cons_self w t)
        have hwf := List.mem_filter.mp hwmem
        refine ⟨hwf.1, by simpa using hwf.2, ?_⟩
        intro a ha hlt
        have hamem : a ∈ appointments.filter (fun apt => decide (now < apt.startsAt)) :=
          List.mem_filter.mpr ⟨ha, by simpa using hlt⟩
        have hasrt := hperm.mem_iff.mpr hamem
        rw [hs] at hasrt
        rcases List.mem_cons.mp hasrt with h1 | h2
        · rw [h1]
        · rw [hs] at hsorted
          have := (List.pairwise_cons.mp hsorted).1 a h2
          simpa using this

/-- **C10 witness**: the theorem at a concrete list — an appointment strictly
after `now = 10` exists, so the selection yields some appointment. -/
theorem claim_C10_witness :
    (∃ a ∈ ([⟨"a".data, (5 : Int)⟩, ⟨"b".data, 30⟩, ⟨"c".data, 20⟩] :
        List Appointment), (10 : Int) < a.startsAt) ∧
    ∃ r, getNextAppointment 10
        [⟨"a".data, 5⟩, ⟨"b".data, 30⟩, ⟨"c".data, 20⟩] = some r :=
  ⟨⟨⟨"b".data, 30⟩, by decide, by decide⟩,
    (claim_C10_next_appointment_minimal_future 10
        [⟨"a".data, 5⟩, ⟨"b".data, 30⟩, ⟨"c".data, 20⟩]).2.1
      ⟨⟨"b".data, 30⟩, by decide, by decide⟩⟩

end DermPortal
